import Mathlib

/-!
# Verification of src/main.py (One_Button_Programmer)

A shallow embedding of the control program in src/main.py: a Raspberry Pi front
panel that lets a user pick a .hex firmware image with one button (SW2, with a
3-second long press triggering shutdown) and write it to an ATtiny1616 with a
second button (SW1), with feedback through three LEDs, a buzzer and a two-line
8-character LCD.

Modelling conventions:
* Python strings are lists of characters (`Str`).
* Wall-clock times (time.time()) are rationals, in seconds.
* The interrupt callbacks and the polled waits of the main loop are embedded as
  pure state-transition functions; the arrivals of interrupts during each 50 ms
  sleep slice are inputs (one Bool per slice, or one `ErrTick` per slice of the
  error wait).
* Side effects on the LEDs, LCD, buzzer and the external programmer are
  recorded as a list of `Act` values; `Act.displayLine n t` records a call
  lcd.display(t, line=n) (the driver then sends `lcdChars t`, see below).
* File paths are identified with their basenames (the hex directory prefix is
  elided; os.path.basename is the identity in the model).
-/

namespace OneButton

/-- Python strings are modelled as lists of characters. -/
abbrev Str := List Char

/-- Python s.ljust(w): pad on the right with spaces up to width w
(unchanged when already at least w long). -/
def pyLjust (s : Str) (w : Nat) : Str := s ++ List.replicate (w - s.length) ' '

/-- main.py line 211: the characters iterated by LCD.display, i.e.
text.ljust(8)[:8] — exactly the bytes sent to the LCD data register. -/
def lcdChars (text : Str) : Str := (pyLjust text 8).take 8

/-- The cur[:8].ljust(8) formatting used at lines 352-353, 373-374 and 441-442
before the text is handed to lcd.display. -/
def fmt8 (s : Str) : Str := pyLjust (s.take 8) 8

/-! ## The SW2 (selection) channel: press/release callback and long-press check -/

/-- sw2_long_press_threshold (line 21), in seconds. -/
def sw2LongPressThreshold : ℚ := 3

/-- The module-level globals of main.py that the SW2 callback and
check_long_press touch: sw2_press_time, sw2_long_press_check and
file_select_event.  `shutdowns` counts the invocations of shutdown_system()
(the sequence that ends in the external halt call, lines 261-289). -/
structure SW2State where
  press_time : Option ℚ
  long_press_check : Bool
  file_select_event : Bool
  shutdowns : Nat
deriving DecidableEq

/-- Python exceptions that the embedded code can raise. -/
inductive PyErr where
  | nameError
deriving DecidableEq

/-- Whether the name button2 is resolvable from on_file_select's scope.  It
never is: button2 is assigned only inside main() (line 318) and main() declares
global only for the two event flags (lines 306-307), so the module-level
callback cannot see it and line 29 raises NameError on every invocation. -/
def button2_in_scope : Bool := false

/-- Body of on_file_select's pressed branch (lines 30-33): record the press
time and arm the long-press check.  `t` is the value of time.time() in the
callback.  UNREACHABLE in the program: the dispatch at line 29 raises
NameError first (see on_file_select). -/
def on_file_select_press_body (t : ℚ) (s : SW2State) : SW2State :=
  { s with press_time := some t, long_press_check := true }

/-- Body of on_file_select's released branch (lines 34-50): if a press time is
recorded, disarm, then either run the shutdown sequence (duration at or above
threshold) or set the file-select flag if it is not already set (short press).
UNREACHABLE in the program: the dispatch at line 29 raises NameError first
(see on_file_select). -/
def on_file_select_release_body (t : ℚ) (s : SW2State) : SW2State :=
  match s.press_time with
  | none => s
  | some t0 =>
      let s1 : SW2State := { s with press_time := none, long_press_check := false }
      if sw2LongPressThreshold ≤ t - t0 then
        { s1 with shutdowns := s1.shutdowns + 1 }
      else if s1.file_select_event then s1
      else { s1 with file_select_event := true }

/-- on_file_select (lines 24-50), as the program executes it: line 29 first
evaluates button2.pull_up to pick the branch, and since button2 is not in
scope (button2_in_scope) this raises NameError before either branch can run —
the callback mutates no state.  `pressed` is the branch the comparison would
have selected had the lookup succeeded. -/
def on_file_select (pressed : Bool) (t : ℚ) (s : SW2State) : Except PyErr SW2State :=
  if button2_in_scope then
    Except.ok (if pressed then on_file_select_press_body t s
               else on_file_select_release_body t s)
  else Except.error PyErr.nameError

/-- check_long_press (lines 292-303): polled from the main loop; if armed and
the recorded press is old enough, disarm and run the shutdown sequence. -/
def check_long_press (t : ℚ) (s : SW2State) : SW2State :=
  if s.long_press_check then
    match s.press_time with
    | some t0 =>
        if sw2LongPressThreshold ≤ t - t0 then
          { s with press_time := none, long_press_check := false,
                   shutdowns := s.shutdowns + 1 }
        else s
    | none => s
  else s

/-- on_write_button (lines 55-61), acting on the write_button_pressed flag:
set it only when it is not already set. -/
def on_write_button (w : Bool) : Bool := if w then w else true

/-- The module-level startup values of the SW2 globals (lines 17-22):
file_select_event = False, sw2_press_time = None, sw2_long_press_check =
False, and no shutdown has run. -/
def startupSW2 : SW2State := ⟨none, false, false, 0⟩

/-- One full press-and-hold cycle on SW2 as the PROGRAM executes it: the press
callback at time t0 (which raises NameError and mutates nothing), any number
of main-loop check_long_press polls at times cs, then the release callback at
time t1 (raising again).  Returns the final state together with the number of
NameErrors raised in the callback thread. -/
def sw2HoldRunActual (t0 t1 : ℚ) (cs : List ℚ) (s : SW2State) : SW2State × Nat :=
  let p1 := match on_file_select true t0 s with
    | Except.ok s' => (s', 0)
    | Except.error _ => (s, 1)
  let s2 := cs.foldl (fun a t => check_long_press t a) p1.1
  match on_file_select false t1 s2 with
  | Except.ok s' => (s', p1.2)
  | Except.error _ => (s2, p1.2 + 1)

/-- One press-then-release cycle through the INTENDED branch bodies of
on_file_select (dead code in the program, see on_file_select). -/
def sw2CycleBody (t0 t1 : ℚ) (s : SW2State) : SW2State :=
  on_file_select_release_body t1 (on_file_select_press_body t0 s)

lemma check_long_press_disarmed (t : ℚ) (e : Bool) (m : Nat) :
    check_long_press t ⟨none, false, e, m⟩ = ⟨none, false, e, m⟩ := by
  simp [check_long_press]

lemma foldl_check_disarmed (cs : List ℚ) (e : Bool) (m : Nat) :
    cs.foldl (fun a t => check_long_press t a) ⟨none, false, e, m⟩
      = ⟨none, false, e, m⟩ := by
  induction cs with
  | nil => rfl
  | cons c cs ih => rw [List.foldl_cons, check_long_press_disarmed]; exact ih

lemma on_file_select_raises (pressed : Bool) (t : ℚ) (s : SW2State) :
    on_file_select pressed t s = Except.error PyErr.nameError := rfl

lemma sw2HoldRunActual_eq (t0 t1 : ℚ) (cs : List ℚ) (s : SW2State) :
    sw2HoldRunActual t0 t1 cs s
      = (cs.foldl (fun a t => check_long_press t a) s, 2) := rfl

/-- Claim C1 (code bug at line 29): every invocation of the SW2 callback
raises NameError — button2 is a local of main() (line 318) and is never
declared global — so a press is never recorded and check_long_press never
arms.  From the program's startup state, a press-and-hold of ANY duration
(in particular the ≥ 3.0 s hold from t = 0 to t = 4 with polls at t = 1 and
t = 3) runs the shutdown sequence ZERO times, with two NameErrors raised in
the callback thread, instead of the exactly-once firing the claim and the
code's own comments describe. -/
theorem c1_long_press_never_fires_namerror :
    (∀ (pressed : Bool) (t : ℚ) (s : SW2State),
      on_file_select pressed t s = Except.error PyErr.nameError) ∧
    (∀ (t0 t1 : ℚ) (cs : List ℚ),
      (sw2HoldRunActual t0 t1 cs startupSW2).1.shutdowns = 0 ∧
      (sw2HoldRunActual t0 t1 cs startupSW2).2 = 2) ∧
    sw2LongPressThreshold ≤ (4 : ℚ) - 0 ∧
    (sw2HoldRunActual 0 4 [1, 3] startupSW2).1.shutdowns = 0 := by
  have hfold : ∀ cs : List ℚ,
      cs.foldl (fun a t => check_long_press t a) startupSW2 = startupSW2 :=
    fun cs => foldl_check_disarmed cs false 0
  refine ⟨on_file_select_raises, fun t0 t1 cs => ?_,
    by norm_num [sw2LongPressThreshold], ?_⟩
  · rw [sw2HoldRunActual_eq, hfold cs]
    exact ⟨rfl, rfl⟩
  · rw [sw2HoldRunActual_eq, hfold [1, 3]]
    rfl

/-- Claim C9 (code bug at line 29): the double-delivery guard of the SW2
short-press path (lines 45-50, documented by the comment at line 47) is
unreachable — every invocation of on_file_select raises NameError before
reaching it, mutating no state — so the idempotent set of file_select_event
the claim describes never executes.  The on_write_button half of the claim
does hold in the code, and the intended (dead) short-press body is indeed an
idempotent set: a second short cycle on an already-set flag changes nothing. -/
theorem c9_flag_set_unreachable_namerror :
    (∀ (pressed : Bool) (t : ℚ) (s : SW2State),
      on_file_select pressed t s = Except.error PyErr.nameError) ∧
    (∀ w : Bool, on_write_button (on_write_button w) = on_write_button w ∧
      on_write_button true = true) ∧
    sw2CycleBody 2 3 (sw2CycleBody 0 1 startupSW2) = sw2CycleBody 0 1 startupSW2 := by
  refine ⟨on_file_select_raises, fun w => ⟨by cases w <;> rfl, rfl⟩, ?_⟩
  norm_num [sw2CycleBody, on_file_select_press_body, on_file_select_release_body,
    startupSW2, sw2LongPressThreshold]

/-- Claim C10: LCD.display sends exactly 8 characters to the data register for
every input text: shorter texts are right-padded with spaces and longer texts
are truncated inside the driver itself. -/
theorem c10_lcd_sends_exactly_eight (text : Str) :
    lcdChars text = text.take 8 ++ List.replicate (8 - text.length) ' ' ∧
    (lcdChars text).length = 8 := by
  have heq : lcdChars text = text.take 8 ++ List.replicate (8 - text.length) ' ' := by
    unfold lcdChars pyLjust
    rw [List.take_append_eq_append_take, List.take_replicate, min_self]
  refine ⟨heq, ?_⟩
  rw [heq]
  rw [List.length_append, List.length_take, List.length_replicate]
  omega

/-! ## The main loop: state, recorded side effects, and the two dispatch branches -/

/-- The three LEDs (green = 22, yellow = 27, red = 17). -/
inductive Led where
  | green
  | yellow
  | red
deriving DecidableEq

/-- Recorded side effects of the main loop.  `displayLine n t` records
lcd.display(t, line=n); `writeHex p` records a programmer.write_hex(p)
invocation; `scrollStart l` records entry into the scrolling animation of
lines 379-407 for the over-wide label l (the animation frames themselves are
not claimed and are elided). -/
inductive Act where
  | displayLine (line : Nat) (text : Str)
  | ledOn (l : Led)
  | ledOff (l : Led)
  | buzz
  | writeHex (path : Str)
  | scrollStart (label : Str)
deriving DecidableEq

/-- Recognizer for programmer invocations among recorded effects. -/
def isWriteHex : Act → Bool
  | Act.writeHex _ => true
  | _ => false

def writingMsg : Str := "Writing".toList

def noHexMsg : Str := "No HEX".toList

def noHexFilesMsg : Str := "No HEX files".toList

def finishMsg : Str := "Finish!!".toList

def errorMsg : Str := "Error!!".toList

/-- The mutable state of main(): the last scanned hex file list, the selected
index, the two interrupt flags, and the local variables cur/nxt holding the
currently displayed pair of names. -/
structure St where
  hex_files : List Str
  selected_idx : Nat
  file_select_event : Bool
  write_button_pressed : Bool
  cur : Str
  nxt : Str
deriving DecidableEq

/-- Startup state (lines 345-353): initial scan, selected_idx = 0, flags clear;
cur/nxt are set only when the scan is non-empty (the model uses [] for the
Python-unassigned case). -/
def initState (scan : List Str) : St :=
  { hex_files := scan, selected_idx := 0,
    file_select_event := false, write_button_pressed := false,
    cur := scan.getD 0 [], nxt := scan.getD (1 % scan.length) [] }

/-- Startup display (lines 347-355): the two-line selection display when files
exist, otherwise the fixed "No HEX files" message. -/
def initActs (scan : List Str) : List Act :=
  if scan.isEmpty then [Act.displayLine 0 noHexFilesMsg]
  else [Act.displayLine 0 (fmt8 (scan.getD 0 [])),
        Act.displayLine 1 (fmt8 (scan.getD (1 % scan.length) []))]

/-- Selection branch of the main loop (lines 363-407), given the result of the
rescan at line 365: clear the flag, store the new list; when non-empty advance
the index modulo the new length, update cur/nxt and the display, and enter the
scrolling animation when the new cur is wider than the 8-character display.
When the rescan is empty nothing further happens (there is no else branch). -/
def selectBranch (scan : List Str) (s : St) : St × List Act :=
  let s1 : St := { s with file_select_event := false, hex_files := scan }
  if scan.isEmpty then (s1, [])
  else
    let n := scan.length
    let idx := (s.selected_idx + 1) % n
    let cur := scan.getD idx []
    let nxt := scan.getD ((idx + 1) % n) []
    let s2 : St := { s1 with selected_idx := idx, cur := cur, nxt := nxt }
    let acts := [Act.displayLine 0 (fmt8 cur), Act.displayLine 1 (fmt8 nxt)]
    if 8 < cur.length then (s2, acts ++ [Act.scrollStart cur]) else (s2, acts)

/-! ### The three polled waits of the write branch -/

/-- Success-message wait (lines 435-439): up to twenty 50 ms slices; each slice
sleeps (during which a pending SW2 short press may set the flag, input `a`),
then, if the flag is set, CLEARS it and breaks.  Returns the flag value after
the loop. -/
def finishWait (flag : Bool) : List Bool → Bool
  | [] => flag
  | a :: rest => if flag || a then false else finishWait (flag || a) rest

/-- Post-write wait (lines 462-465): up to twenty 50 ms slices; breaks when
the flag is set but does NOT clear it. -/
def postWait (flag : Bool) : List Bool → Bool
  | [] => flag
  | a :: rest => if flag || a then flag || a else postWait (flag || a) rest

/-- One 50 ms polling tick of the error wait (lines 446-458): which interrupts
arrive during the tick's sleep, and the physical levels of the two buttons.
The SW2 level is part of the environment but is never read by this code. -/
structure ErrTick where
  w_arrival : Bool
  f_arrival : Bool
  sw1_active : Bool
  sw2_active : Bool
deriving DecidableEq

/-- Acknowledgment phase of the error wait (outer while of lines 447-458):
check the two flags; when neither is set, sleep one tick (arrivals may set
them) and retry.  On acknowledgment the remaining ticks are returned (the red
LED is turned off and both flags cleared by the caller).  `none` models the
indefinite block when no event arrives within the supplied ticks. -/
def errAckWait : Bool → Bool → List ErrTick → Option (List ErrTick)
  | w, f, [] => if w || f then some [] else none
  | w, f, t :: rest =>
      if w || f then some (t :: rest)
      else errAckWait (w || t.w_arrival) (f || t.f_arrival) rest

/-- Release wait (lines 455-456): while button.is_active() — this polls SW1,
the write button, ONLY — sleep one tick.  Arrivals during those sleeps
accumulate into the (just cleared) flags.  Exits at the first tick whose SW1
level reads inactive; that tick is returned unconsumed at the head of the
remaining list. -/
def releaseWait : Bool → Bool → List ErrTick → Option (Bool × Bool × List ErrTick)
  | _, _, [] => none
  | w, f, t :: rest =>
      if t.sw1_active then releaseWait (w || t.w_arrival) (f || t.f_arrival) rest
      else some (w, f, t :: rest)

/-- The whole error wait: block for an acknowledging event on either channel,
clear the flags, then wait for SW1 to read released. -/
def errorWait (w f : Bool) (ticks : List ErrTick) : Option (Bool × Bool × List ErrTick) :=
  match errAckWait w f ticks with
  | none => none
  | some rest => releaseWait false false rest

/-- Write branch of the main loop (lines 411-465).  `outcome` is the result of
programmer.write_hex (False also covers the exception path); `arr1` are the
flag arrivals during the success-message wait, `arr2` those during the
post-write wait, and `ticks` drive the error wait.  `none` models the branch
never returning (error wait blocked forever). -/
def writeBranch (outcome : Bool) (arr1 arr2 : List Bool) (ticks : List ErrTick)
    (s : St) : Option (St × List Act) :=
  let s1 : St := { s with write_button_pressed := false }
  let pre : List Act :=
    [Act.ledOff Led.green, Act.ledOn Led.yellow, Act.displayLine 1 writingMsg]
  if s1.hex_files.isEmpty then
    some ({ s1 with file_select_event := postWait s1.file_select_event arr2 },
      pre ++ [Act.displayLine 1 noHexMsg, Act.ledOff Led.yellow])
  else
    let target := s1.hex_files.getD s1.selected_idx []
    if outcome then
      let f1 := finishWait s1.file_select_event arr1
      some ({ s1 with file_select_event := postWait f1 arr2 },
        pre ++ [Act.writeHex target, Act.buzz, Act.displayLine 1 finishMsg,
          Act.ledOff Led.red, Act.ledOn Led.green,
          Act.displayLine 0 (fmt8 s1.cur), Act.displayLine 1 (fmt8 s1.nxt),
          Act.ledOff Led.yellow])
    else
      match errorWait s1.write_button_pressed s1.file_select_event ticks with
      | none => none
      | some (w, f, _) =>
          some ({ s1 with write_button_pressed := w,
                          file_select_event := postWait f arr2 },
            pre ++ [Act.writeHex target, Act.displayLine 1 errorMsg,
              Act.ledOn Led.red, Act.ledOff Led.red, Act.ledOff Led.yellow])

/-- Top of the next main-loop iteration after a write: the selection advances
exactly when file_select_event is set (line 363). -/
def loopAfterWrite (scan : List Str) (s : St) : St :=
  if s.file_select_event then (selectBranch scan s).1 else s

/-- The states main() can reach: the startup state, followed by any
interleaving of selection-branch runs, write-branch runs, and interrupt
callbacks setting a flag. -/
inductive Reach : St → Prop where
  | init (scan : List Str) : Reach (initState scan)
  | select (s : St) (scan : List Str) : Reach s → Reach (selectBranch scan s).1
  | write (s s' : St) (outcome : Bool) (arr1 arr2 : List Bool)
      (ticks : List ErrTick) (acts : List Act) : Reach s →
      writeBranch outcome arr1 arr2 ticks s = some (s', acts) → Reach s'
  | sw2Short (s : St) : Reach s → Reach { s with file_select_event := true }
  | sw1Press (s : St) : Reach s → Reach { s with write_button_pressed := true }

/-! ## Claims about the selection branch (C4, C7, C8) -/

/-- The state part of one selection advance. -/
def advState (scan : List Str) (s : St) : St := (selectBranch scan s).1

lemma selectBranch_empty (s : St) :
    selectBranch [] s = ({ s with file_select_event := false, hex_files := [] }, []) := by
  simp [selectBranch]

lemma advState_idx (scan : List Str) (s : St) (h : scan ≠ []) :
    (advState scan s).selected_idx = (s.selected_idx + 1) % scan.length := by
  have he : scan.isEmpty = false := by
    cases scan with
    | nil => exact absurd rfl h
    | cons a l => rfl
  unfold advState selectBranch
  simp only [he, Bool.false_eq_true, if_false]
  split <;> rfl

lemma advState_iter (scan : List Str) (h : scan ≠ []) (s : St)
    (h2 : s.selected_idx < scan.length) (k : Nat) :
    ((advState scan)^[k] s).selected_idx = (s.selected_idx + k) % scan.length := by
  induction k with
  | zero => simpa using (Nat.mod_eq_of_lt h2).symm
  | succ k ih =>
      rw [Function.iterate_succ_apply', advState_idx _ _ h, ih, Nat.mod_add_mod,
        Nat.add_assoc]

/-- Claim C4: on a non-empty catalog of length N one selection advance sets the
index to (i+1) mod N, and — for any in-range current index — N advances with an
unchanged catalog return the index to its original value. -/
theorem c4_advance_mod (scan : List Str) (s : St) (h : scan ≠ [])
    (h2 : s.selected_idx < scan.length) :
    (advState scan s).selected_idx = (s.selected_idx + 1) % scan.length ∧
    ((advState scan)^[scan.length] s).selected_idx = s.selected_idx := by
  refine ⟨advState_idx scan s h, ?_⟩
  rw [advState_iter scan h s h2 scan.length, Nat.add_mod_right,
    Nat.mod_eq_of_lt h2]

/-- Names used by the concrete scenarios below. -/
def aHex : Str := ['a', '.', 'h', 'e', 'x']

def bHex : Str := ['b', '.', 'h', 'e', 'x']

def cHex : Str := ['c', '.', 'h', 'e', 'x']

def demoScan : List Str := [aHex, bHex]

/-- Witness for C4 on the two-file catalog: one advance goes to (0+1) mod 2 and
two advances return to 0. -/
theorem c4_advance_mod_witness :
    demoScan ≠ [] ∧ (initState demoScan).selected_idx < demoScan.length ∧
    ((advState demoScan (initState demoScan)).selected_idx
        = ((initState demoScan).selected_idx + 1) % demoScan.length ∧
      ((advState demoScan)^[demoScan.length] (initState demoScan)).selected_idx
        = (initState demoScan).selected_idx) :=
  ⟨by decide, by decide,
   c4_advance_mod demoScan (initState demoScan) (by decide) (by decide)⟩

/-! ## Claim C5: the indexing invariant -/

lemma writeBranch_preserves (outcome : Bool) (arr1 arr2 : List Bool)
    (ticks : List ErrTick) (s s' : St) (acts : List Act)
    (h : writeBranch outcome arr1 arr2 ticks s = some (s', acts)) :
    s'.hex_files = s.hex_files ∧ s'.selected_idx = s.selected_idx ∧
    s'.cur = s.cur ∧ s'.nxt = s.nxt := by
  unfold writeBranch at h
  dsimp only at h
  repeat' split at h
  all_goals
    first
      | exact Option.noConfusion h
      | (injection h with h1
         injection h1 with h2 h3
         subst h2
         exact ⟨rfl, rfl, rfl, rfl⟩)

/-- Claim C5: in every reachable state of the main loop, whenever the scanned
catalog is non-empty the selected index is strictly below its length — in
particular the hex_files[selected_idx] indexing of the write path (line 422) is
always in range, including after the catalog shrinks across a rescan, because
the advance takes the index modulo the new length. -/
theorem c5_index_in_range (s : St) (hr : Reach s) :
    s.hex_files ≠ [] → s.selected_idx < s.hex_files.length := by
  induction hr with
  | init scan =>
      intro h
      simpa [initState] using List.length_pos.mpr h
  | select s scan _ _ =>
      intro h
      rcases scan with _ | ⟨a, l⟩
      · have hnil : (selectBranch [] s).1.hex_files = [] := by
          rw [selectBranch_empty]
        exact absurd hnil h
      · have hne : (a :: l : List Str) ≠ [] := by simp
        have hidx := advState_idx (a :: l) s hne
        have hfiles : (advState (a :: l) s).hex_files = a :: l := by
          unfold advState selectBranch
          simp only [List.isEmpty_cons, Bool.false_eq_true, if_false]
          split <;> rfl
        unfold advState at hidx hfiles
        rw [hfiles, hidx]
        exact Nat.mod_lt _ (by simp)
  | write s s' outcome arr1 arr2 ticks acts _ hw ih =>
      obtain ⟨h1, h2, _, _⟩ := writeBranch_preserves outcome arr1 arr2 ticks s s' acts hw
      rw [h1, h2]
      exact ih
  | sw2Short s _ ih => exact ih
  | sw1Press s _ ih => exact ih

def demoScan3 : List Str := [aHex, bHex, cHex]

/-- A state reached by advancing twice over a three-file catalog (index 2) and
then once more over a catalog that shrank to a single file: the index is pulled
back into range by the modulo. -/
def shrunkSt : St :=
  advState [aHex] (advState demoScan3 (advState demoScan3 (initState demoScan3)))

/-- Witness for C5 at the shrinking-catalog scenario. -/
theorem c5_index_in_range_witness :
    shrunkSt.hex_files ≠ [] ∧ shrunkSt.selected_idx < shrunkSt.hex_files.length :=
  ⟨by decide,
   c5_index_in_range shrunkSt
     (Reach.select _ [aHex]
       (Reach.select _ demoScan3 (Reach.select _ demoScan3 (Reach.init demoScan3))))
     (by decide)⟩

/-! ## Claim C6: empty catalog short-circuits the write -/

/-- The recorded effects of the write branch when the catalog is empty. -/
def noHexActs : List Act :=
  [Act.ledOff Led.green, Act.ledOn Led.yellow, Act.displayLine 1 writingMsg,
   Act.displayLine 1 noHexMsg, Act.ledOff Led.yellow]

/-- Claim C6: with an empty catalog, a write-trigger press displays the
"No HEX" message, never invokes Programmer.write_hex, and returns to the idle
loop (the busy LED is switched back off; the error wait is never entered, so
the branch always returns). -/
theorem c6_empty_catalog_no_write (outcome : Bool) (arr1 arr2 : List Bool)
    (ticks : List ErrTick) (s : St) (h : s.hex_files = []) :
    writeBranch outcome arr1 arr2 ticks s =
      some ({ s with write_button_pressed := false,
                     file_select_event := postWait s.file_select_event arr2 },
            noHexActs) ∧
    noHexActs.countP isWriteHex = 0 ∧
    Act.displayLine 1 noHexMsg ∈ noHexActs ∧
    Act.ledOff Led.yellow ∈ noHexActs := by
  refine ⟨?_, by decide, by decide, by decide⟩
  unfold writeBranch
  simp [h, noHexActs]

/-- The startup state of an empty hex directory. -/
def emptySt : St := initState []

/-- Witness for C6 at the empty startup state. -/
theorem c6_empty_catalog_no_write_witness :
    emptySt.hex_files = [] ∧
    (writeBranch false [] [] [] emptySt =
        some ({ emptySt with write_button_pressed := false,
                             file_select_event := postWait emptySt.file_select_event [] },
              noHexActs) ∧
      noHexActs.countP isWriteHex = 0 ∧
      Act.displayLine 1 noHexMsg ∈ noHexActs ∧
      Act.ledOff Led.yellow ∈ noHexActs) :=
  ⟨rfl, c6_empty_catalog_no_write false [] [] [] emptySt rfl⟩

/-! ## Claim C7: advance on an empty catalog and the display -/

/-- A state whose display shows a.hex while the directory has just been
emptied. -/
def c7St : St :=
  { hex_files := [aHex], selected_idx := 0, file_select_event := true,
    write_button_pressed := false, cur := aHex, nxt := aHex }

/-- Counterexample to claim C7 as stated: a selection advance over an empty
rescan emits NO display action at all — in particular it does not write the
"No HEX files" text; the previous display content is simply left in place. -/
theorem c7_counterexample :
    (selectBranch [] c7St).2 = [] ∧
    ¬ Act.displayLine 0 noHexFilesMsg ∈ (selectBranch [] c7St).2 := by
  decide

/-- Claim C7 amended: an advance whose rescan is empty only clears the event
flag and stores the empty list, emitting no display action; the fixed
"No HEX files" message is written by the startup path alone. -/
theorem c7_amended_no_display_on_empty_advance :
    (∀ s : St,
      selectBranch [] s = ({ s with file_select_event := false, hex_files := [] }, [])) ∧
    initActs [] = [Act.displayLine 0 noHexFilesMsg] := by
  exact ⟨fun s => selectBranch_empty s, rfl⟩

/-! ## Claim C8: scrolling exactly for labels wider than the display -/

/-- Claim C8: the selection branch enters the scrolling animation if and only
if the newly selected label is strictly longer than the 8-character display
width (so an 8-character label never scrolls and a 9-character one always
does). -/
theorem c8_scroll_iff_wide (scan : List Str) (s : St) (h : scan ≠ []) :
    Act.scrollStart (scan.getD ((s.selected_idx + 1) % scan.length) [])
        ∈ (selectBranch scan s).2 ↔
      8 < (scan.getD ((s.selected_idx + 1) % scan.length) []).length := by
  have he : scan.isEmpty = false := by
    cases scan with
    | nil => exact absurd rfl h
    | cons a l => rfl
  unfold selectBranch
  simp only [he, Bool.false_eq_true, if_false]
  split
  · next hl => simpa using hl
  · next hl => simpa using hl

def wideName : Str := ['l', 'o', 'n', 'g', 'n', 'a', 'm', 'e', 's']

/-- Witness for C8: a 9-character label on a one-file catalog scrolls. -/
theorem c8_scroll_iff_wide_witness :
    ([wideName] : List Str) ≠ [] ∧
    (Act.scrollStart
        (([wideName] : List Str).getD
          (((initState [wideName]).selected_idx + 1) % ([wideName] : List Str).length) [])
        ∈ (selectBranch [wideName] (initState [wideName])).2 ↔
      8 < (([wideName] : List Str).getD
          (((initState [wideName]).selected_idx + 1) % ([wideName] : List Str).length)
          []).length) :=
  ⟨by decide, c8_scroll_iff_wide [wideName] (initState [wideName]) (by decide)⟩

/-! ## Claim C2: the success path and events arriving during its wait -/

lemma finishWait_false (arr : List Bool) : finishWait false arr = false := by
  induction arr with
  | nil => rfl
  | cons a rest ih => cases a <;> simp [finishWait, ih]

lemma finishWait_of_ne_nil (flag : Bool) (arr : List Bool) (h : arr ≠ []) :
    finishWait flag arr = false := by
  cases arr with
  | nil => exact absurd rfl h
  | cons a rest =>
      cases hfa : (flag || a) with
      | true => simp [finishWait, hfa]
      | false => simp [finishWait, hfa, finishWait_false]

lemma postWait_false_any (arr : List Bool) : postWait false arr = arr.any id := by
  induction arr with
  | nil => rfl
  | cons a rest ih => cases a <;> simp [postWait, ih]

/-- The state left by a successful write: trigger flag cleared, and the
selection flag holds only what arrived during the post-write wait — whatever
arrived during the success-message wait has been discarded. -/
def postSuccessState (s : St) (arr2 : List Bool) : St :=
  { s with write_button_pressed := false, file_select_event := postWait false arr2 }

/-- The recorded effects of a successful write. -/
def successActs (s : St) : List Act :=
  [Act.ledOff Led.green, Act.ledOn Led.yellow, Act.displayLine 1 writingMsg,
   Act.writeHex (s.hex_files.getD s.selected_idx []), Act.buzz,
   Act.displayLine 1 finishMsg, Act.ledOff Led.red, Act.ledOn Led.green,
   Act.displayLine 0 (fmt8 s.cur), Act.displayLine 1 (fmt8 s.nxt),
   Act.ledOff Led.yellow]

lemma isEmpty_eq_false_of_ne_nil {l : List Str} (h : l ≠ []) : l.isEmpty = false := by
  cases l with
  | nil => exact absurd rfl h
  | cons a t => rfl

/-- A selection scenario used by the C2 concrete runs. -/
def c2St : St :=
  { hex_files := demoScan, selected_idx := 0, file_select_event := false,
    write_button_pressed := true, cur := aHex, nxt := bHex }

/-- A selection event arrives in the very first 50 ms slice of the
success-message wait and nothing arrives afterwards. -/
def c2Arr1 : List Bool := true :: List.replicate 19 false

def c2Arr2 : List Bool := List.replicate 20 false

/-- The selected index at the top of the next loop iteration after the
successful write of the C2 scenario. -/
def c2NextIdx : Option Nat :=
  (writeBranch true c2Arr1 c2Arr2 [] c2St).map
    (fun p => (loopAfterWrite demoScan p.1).selected_idx)

/-- Counterexample to claim C2 as stated: in the two-file catalog with index 0,
a selection event arriving during the success-message wait is consumed by the
wait (the flag is cleared at line 438) and the selection does NOT advance — the
next iteration leaves the index at 0, not 1. -/
theorem c2_counterexample : c2NextIdx = some 0 ∧ c2NextIdx ≠ some 1 := by decide

/-- Claim C2 amended: on Success the sequencer sounds the tone, shows the
success message for a bounded wait polled in 50 ms slices, and restores the
two-line selection display; but a selection event arriving during that wait
only cuts the wait short and is then dropped — the flag is cleared, so unless a
new event arrives during the later post-write wait the selection does not
advance. -/
theorem c2_success_event_dropped (s : St) (arr1 arr2 : List Bool)
    (ticks : List ErrTick) (scan : List Str)
    (h1 : arr1 ≠ []) (h2 : s.hex_files ≠ []) :
    writeBranch true arr1 arr2 ticks s = some (postSuccessState s arr2, successActs s) ∧
    (postSuccessState s arr2).file_select_event = arr2.any id ∧
    Act.buzz ∈ successActs s ∧
    Act.displayLine 1 finishMsg ∈ successActs s ∧
    Act.displayLine 0 (fmt8 s.cur) ∈ successActs s ∧
    Act.displayLine 1 (fmt8 s.nxt) ∈ successActs s ∧
    (arr2.any id = false →
      loopAfterWrite scan (postSuccessState s arr2) = postSuccessState s arr2) := by
  have he := isEmpty_eq_false_of_ne_nil h2
  refine ⟨?_, postWait_false_any arr2, by simp [successActs], by simp [successActs],
    by simp [successActs], by simp [successActs], ?_⟩
  · unfold writeBranch
    dsimp only
    rw [he]
    simp only [Bool.false_eq_true, if_false, if_true]
    rw [finishWait_of_ne_nil s.file_select_event arr1 h1]
    rfl
  · intro hf
    have hflag : (postSuccessState s arr2).file_select_event = false := by
      show postWait false arr2 = false
      rw [postWait_false_any]
      exact hf
    unfold loopAfterWrite
    rw [hflag]
    simp

/-- Witness for C2 (amended): concrete two-file scenario with an event in the
first slice of the success wait and a quiet post-write wait. -/
theorem c2_success_event_dropped_witness :
    c2Arr1 ≠ [] ∧ c2St.hex_files ≠ [] ∧
    (writeBranch true c2Arr1 c2Arr2 [] c2St
        = some (postSuccessState c2St c2Arr2, successActs c2St) ∧
      (postSuccessState c2St c2Arr2).file_select_event = c2Arr2.any id ∧
      Act.buzz ∈ successActs c2St ∧
      Act.displayLine 1 finishMsg ∈ successActs c2St ∧
      Act.displayLine 0 (fmt8 c2St.cur) ∈ successActs c2St ∧
      Act.displayLine 1 (fmt8 c2St.nxt) ∈ successActs c2St ∧
      (c2Arr2.any id = false →
        loopAfterWrite demoScan (postSuccessState c2St c2Arr2)
          = postSuccessState c2St c2Arr2)) :=
  ⟨by decide, by decide,
   c2_success_event_dropped c2St c2Arr1 c2Arr2 [] demoScan (by decide) (by decide)⟩

/-! ## Claim C3: the error wait -/

/-- A tick in which no interrupt arrives on either channel. -/
def noArrival (t : ErrTick) : Bool := !t.w_arrival && !t.f_arrival

/-- A tick in which the write channel produces nothing (any acknowledgment can
only have come from the selection channel). -/
def noWriteArrival (t : ErrTick) : Bool := !t.w_arrival

/-- The state left by writeBranch after an acknowledged failed write. -/
def postErrorState (s : St) (w2 f2 : Bool) (arr2 : List Bool) : St :=
  { s with write_button_pressed := w2, file_select_event := postWait f2 arr2 }

/-- The recorded effects of a failed (and acknowledged) write. -/
def errorActs (s : St) : List Act :=
  [Act.ledOff Led.green, Act.ledOn Led.yellow, Act.displayLine 1 writingMsg,
   Act.writeHex (s.hex_files.getD s.selected_idx []), Act.displayLine 1 errorMsg,
   Act.ledOn Led.red, Act.ledOff Led.red, Act.ledOff Led.yellow]

lemma errAckWait_none (ticks : List ErrTick) (h : ticks.all noArrival = true) :
    errAckWait false false ticks = none := by
  induction ticks with
  | nil => rfl
  | cons t rest ih =>
      rw [List.all_cons, Bool.and_eq_true] at h
      obtain ⟨ht, hrest⟩ := h
      have hw : t.w_arrival = false := by
        revert ht; unfold noArrival; cases t.w_arrival <;> simp
      have hf : t.f_arrival = false := by
        revert ht; unfold noArrival; cases t.f_arrival <;> simp
      show errAckWait false false (t :: rest) = none
      unfold errAckWait
      rw [hw, hf]
      simpa using ih hrest

lemma releaseWait_some_sw1 (ticks : List ErrTick) :
    ∀ (w f w2 f2 : Bool) (t : ErrTick) (rest : List ErrTick),
      releaseWait w f ticks = some (w2, f2, t :: rest) → t.sw1_active = false := by
  induction ticks with
  | nil => intro w f w2 f2 t rest h; exact Option.noConfusion h
  | cons u us ih =>
      intro w f w2 f2 t rest h
      unfold releaseWait at h
      split at h
      · exact ih _ _ _ _ _ _ h
      · next hcond =>
          simp only [Option.some.injEq, Prod.mk.injEq, List.cons.injEq] at h
          obtain ⟨-, -, hut, -⟩ := h
          rw [← hut]
          cases hu : u.sw1_active
          · rfl
          · exact absurd hu hcond

lemma errorWait_some_sw1 (w f w2 f2 : Bool) (ticks rest : List ErrTick) (t : ErrTick)
    (h : errorWait w f ticks = some (w2, f2, t :: rest)) : t.sw1_active = false := by
  unfold errorWait at h
  cases ha : errAckWait w f ticks with
  | none => rw [ha] at h; exact Option.noConfusion h
  | some rem => rw [ha] at h; exact releaseWait_some_sw1 rem false false w2 f2 t rest h

lemma writeBranch_failure (s : St) (arr1 arr2 : List Bool) (ticks rest : List ErrTick)
    (w2 f2 : Bool) (h2 : s.hex_files ≠ [])
    (herr : errorWait false s.file_select_event ticks = some (w2, f2, rest)) :
    writeBranch false arr1 arr2 ticks s = some (postErrorState s w2 f2 arr2, errorActs s) := by
  have he := isEmpty_eq_false_of_ne_nil h2
  unfold writeBranch
  dsimp only
  rw [he]
  simp only [Bool.false_eq_true, if_false]
  rw [herr]
  rfl

/-- Claim C3 amended: on Failure the sequencer shows the error message, lights
the red indicator, and blocks until the write-trigger or the selection channel
produces a new event (no event within the modelled ticks means no return);
it then clears the indicator and both flags, but before returning it waits for
the WRITE-TRIGGER button (SW1) to be physically released — always SW1,
regardless of which channel produced the acknowledging event. -/
theorem c3_error_wait_releases_sw1 :
    (∀ ticks : List ErrTick, ticks.all noArrival = true →
      errorWait false false ticks = none) ∧
    (∀ (w f w2 f2 : Bool) (ticks rest : List ErrTick) (t : ErrTick),
      errorWait w f ticks = some (w2, f2, t :: rest) → t.sw1_active = false) ∧
    (∀ (s : St) (arr1 arr2 : List Bool) (ticks rest : List ErrTick) (w2 f2 : Bool),
      s.hex_files ≠ [] →
      errorWait false s.file_select_event ticks = some (w2, f2, rest) →
      writeBranch false arr1 arr2 ticks s
          = some (postErrorState s w2 f2 arr2, errorActs s) ∧
        Act.displayLine 1 errorMsg ∈ errorActs s ∧
        Act.ledOn Led.red ∈ errorActs s ∧
        Act.ledOff Led.red ∈ errorActs s) := by
  refine ⟨?_, ?_, ?_⟩
  · intro ticks h
    unfold errorWait
    rw [errAckWait_none ticks h]
  · intro w f w2 f2 ticks rest t h
    exact errorWait_some_sw1 w f w2 f2 ticks rest t h
  · intro s arr1 arr2 ticks rest w2 f2 h2 herr
    exact ⟨writeBranch_failure s arr1 arr2 ticks rest w2 f2 h2 herr,
      by simp [errorActs], by simp [errorActs], by simp [errorActs]⟩

/-- A quiet tick with both buttons physically held. -/
def quietHeldTick : ErrTick := ⟨false, false, true, true⟩

/-- A tick with no arrivals and both buttons physically released. -/
def freeTick : ErrTick := ⟨false, false, false, false⟩

/-- State for the concrete C3 runs: one file selected, write triggered. -/
def c3St : St :=
  { hex_files := [aHex], selected_idx := 0, file_select_event := false,
    write_button_pressed := true, cur := aHex, nxt := aHex }

/-- Witness for C3 (amended): with no arrivals the wait blocks; when it does
return, the SW1 level at the exit tick reads inactive; and the failure branch
records the error display and red-indicator sequence. -/
theorem c3_error_wait_releases_sw1_witness :
    ([quietHeldTick] : List ErrTick).all noArrival = true ∧
    errorWait false false [quietHeldTick] = none ∧
    errorWait true false [freeTick] = some (false, false, [freeTick]) ∧
    freeTick.sw1_active = false ∧
    c3St.hex_files ≠ [] ∧
    errorWait false c3St.file_select_event [⟨false, true, false, true⟩, freeTick]
        = some (false, false, [freeTick]) ∧
    (writeBranch false [] [] [⟨false, true, false, true⟩, freeTick] c3St
        = some (postErrorState c3St false false [], errorActs c3St) ∧
      Act.displayLine 1 errorMsg ∈ errorActs c3St ∧
      Act.ledOn Led.red ∈ errorActs c3St ∧
      Act.ledOff Led.red ∈ errorActs c3St) :=
  ⟨by decide,
   c3_error_wait_releases_sw1.1 [quietHeldTick] (by decide),
   by decide,
   c3_error_wait_releases_sw1.2.1 true false false false [freeTick] [] freeTick (by decide),
   by decide,
   by decide,
   c3_error_wait_releases_sw1.2.2 c3St [] [] [⟨false, true, false, true⟩, freeTick]
     [freeTick] false false (by decide) (by decide)⟩

/-- Ticks of the C3 counterexample: a selection-channel event arrives in the
first tick, SW2 stays physically active in every tick, and SW1 reads inactive
at the release check. -/
def c3CexTicks : List ErrTick := [⟨false, true, false, true⟩, ⟨false, false, false, true⟩]

/-- Counterexample to claim C3 as stated: the acknowledging event comes from
the selection channel only (no write-channel arrival anywhere), the selection
button SW2 remains physically pressed during every modelled tick, and still the
error wait completes and the branch returns — because line 455 polls only SW1,
not the button that produced the acknowledging event. -/
theorem c3_counterexample :
    c3CexTicks.all ErrTick.sw2_active = true ∧
    c3CexTicks.all noWriteArrival = true ∧
    (writeBranch false [] [] c3CexTicks c3St).isSome = true := by
  decide

end OneButton
